import Mathlib

/-
Verification of the projection engine of `app.py` (personal finance planner).

The engine `calculate_projection` is translated here as a shallow embedding:
Python floats are modelled as exact rationals (ℚ), Python `round(x, 2)`
as decimal rounding half-to-even at two digits, and a raised runtime
exception as `Option.none`.  The Python source computes the snapshot field
`'Age': params['current_age'] + year - 1` unconditionally, so when
`current_age` is `None` (no marriage plan) the first loop iteration raises
a `TypeError`; the embedding returns `none` in exactly that situation.
-/

namespace FinanceApp

/-- Rounding of a rational to the nearest integer, ties to even
(the behaviour of Python's builtin `round`). -/
def pyRound (x : ℚ) : ℤ :=
  if x - ⌊x⌋ < 1/2 then ⌊x⌋
  else if (1:ℚ)/2 < x - ⌊x⌋ then ⌊x⌋ + 1
  else if ⌊x⌋ % 2 = 0 then ⌊x⌋ else ⌊x⌋ + 1

/-- Python `round(x, 2)`: round to two decimal digits. -/
def round2 (x : ℚ) : ℚ := (pyRound (100 * x) : ℚ) / 100

/-- The `INDUSTRY_GROWTH` dict of `app.py` (lines 15-24), as an
association list. -/
def INDUSTRY_GROWTH : List (String × ℚ) :=
  [("finance", 5/100), ("technology", 6/100), ("healthcare", 4/100),
   ("education", 3/100), ("manufacturing", 35/1000), ("retail", 25/1000),
   ("government", 2/100), ("consulting", 45/1000)]

/-- `INDUSTRY_GROWTH.get(industry, 0.03)` (line 35): dictionary lookup with
default rate 0.03 for unknown keys. -/
def growthGet (industry : String) : ℚ :=
  (INDUSTRY_GROWTH.lookup industry).getD (3/100)

/-- The `params` dict handed to `calculate_projection` (lines 94-104).
`current_age` and `marriage_age` are `None` when the marriage checkbox is
unchecked. -/
structure Params where
  starting_salary : ℚ
  rent : ℚ
  monthly_expenses : ℚ
  years : ℕ
  industry : String
  investment_rate : ℚ
  invest_ratio : ℚ
  current_age : Option ℤ
  marriage_age : Option ℤ
deriving Repr, DecidableEq

/-- One result-row dict appended per year (lines 55-65). -/
structure Snapshot where
  Year : ℕ
  Age : ℤ
  Salary : ℚ
  Rent : ℚ
  Expenses : ℚ
  Savings : ℚ
  Invested : ℚ
  Cash : ℚ
  Total : ℚ
deriving Repr, DecidableEq

/-- Python truthiness of the optional `marriage_age`
(the `if params['marriage_age'] and ...` test on line 39):
`None` and `0` are falsy, every other integer is truthy. -/
def truthy : Option ℤ → Bool
  | none => false
  | some m => m != 0

/-- The loop body of `calculate_projection` (lines 33-65), one recursive
step per `year in range(1, years + 1)`.  The state threaded through the
iterations is `(salary, savings, invested)` exactly as in the source;
`fuel` counts the remaining iterations.  When `current_age` is `None` an
iteration raises (`'Age': params['current_age'] + year - 1` is a Python
`TypeError`; with a truthy `marriage_age` the comparison on line 39 raises
first) — modelled by `none`. -/
def projLoop (p : Params) : ℕ → ℕ → ℚ → ℚ → ℚ → Option (List Snapshot)
  | _, 0, _, _, _ => some []
  | year, fuel + 1, salary0, savings0, invested0 =>
    match p.current_age with
    | none => none
    | some current_age =>
      let salary := salary0 * (1 + growthGet p.industry)
      let rent :=
        if (truthy p.marriage_age = true) ∧
            (p.marriage_age.getD 0 ≤ current_age + (year : ℤ) - 1)
        then p.rent * (8/10) else p.rent
      let expenses := rent + p.monthly_expenses * 12
      let annual_savings := salary - expenses
      let to_invest := annual_savings * p.invest_ratio
      let to_cash := annual_savings * (1 - p.invest_ratio)
      let invested := invested0 * (1 + p.investment_rate) + to_invest
      let savings := savings0 + to_cash
      let total := savings + invested
      let snap : Snapshot :=
        { Year := year, Age := current_age + (year : ℤ) - 1,
          Salary := round2 salary, Rent := round2 rent,
          Expenses := round2 expenses, Savings := round2 annual_savings,
          Invested := round2 invested, Cash := round2 savings,
          Total := round2 total }
      (projLoop p (year + 1) fuel salary savings invested).map
        (fun rest => snap :: rest)

/-- `calculate_projection` (lines 27-67): initial state
`salary = starting_salary`, `savings = 0`, `invested = 0`, then the loop
over `year = 1 .. years`. -/
def calculate_projection (p : Params) : Option (List Snapshot) :=
  projLoop p 1 p.years p.starting_salary 0 0

/-! ### Closed-form description of the per-year quantities -/

/-- Internal (unrounded) salary after `n` applications of growth. -/
def salaryAt (p : Params) (n : ℕ) : ℚ :=
  p.starting_salary * (1 + growthGet p.industry) ^ n

/-- Effective rent in a given year, for a present `current_age` value
`age0`: reduced by 20% from the original rent whenever the marriage test
fires, recomputed from `p.rent` each year. -/
def rentAt (p : Params) (age0 : ℤ) (year : ℕ) : ℚ :=
  if (truthy p.marriage_age = true) ∧
      (p.marriage_age.getD 0 ≤ age0 + (year : ℤ) - 1)
  then p.rent * (8/10) else p.rent

/-- Expenses of a given year. -/
def expensesAt (p : Params) (age0 : ℤ) (year : ℕ) : ℚ :=
  rentAt p age0 year + p.monthly_expenses * 12

/-- Annual (net) savings of a given year. -/
def savingsAt (p : Params) (age0 : ℤ) (year : ℕ) : ℚ :=
  salaryAt p year - expensesAt p age0 year

/-- Contribution sent to the investment accumulator in a given year. -/
def toInvestAt (p : Params) (age0 : ℤ) (year : ℕ) : ℚ :=
  savingsAt p age0 year * p.invest_ratio

/-- Contribution sent to the cash accumulator in a given year. -/
def toCashAt (p : Params) (age0 : ℤ) (year : ℕ) : ℚ :=
  savingsAt p age0 year * (1 - p.invest_ratio)

/-- Internal (unrounded) cumulative invested balance after `n` years:
the prior balance compounds first, then the year-`n` contribution is
added. -/
def investedAt (p : Params) (age0 : ℤ) : ℕ → ℚ
  | 0 => 0
  | n + 1 => investedAt p age0 n * (1 + p.investment_rate) + toInvestAt p age0 (n + 1)

/-- Internal (unrounded) cumulative cash balance after `n` years. -/
def cashAt (p : Params) (age0 : ℤ) : ℕ → ℚ
  | 0 => 0
  | n + 1 => cashAt p age0 n + toCashAt p age0 (n + 1)

/-- The snapshot emitted for year `n`: every monetary field is the 2-digit
rounding of the corresponding unrounded internal quantity. -/
def snapAt (p : Params) (age0 : ℤ) (n : ℕ) : Snapshot :=
  { Year := n, Age := age0 + (n : ℤ) - 1,
    Salary := round2 (salaryAt p n), Rent := round2 (rentAt p age0 n),
    Expenses := round2 (expensesAt p age0 n),
    Savings := round2 (savingsAt p age0 n),
    Invested := round2 (investedAt p age0 n),
    Cash := round2 (cashAt p age0 n),
    Total := round2 (cashAt p age0 n + investedAt p age0 n) }

lemma salaryAt_succ (p : Params) (n : ℕ) :
    salaryAt p (n + 1) = salaryAt p n * (1 + growthGet p.industry) := by
  simp only [salaryAt, pow_succ, mul_assoc]

/-- Master characterisation of the loop: starting from the internal state
after `n` years, running `fuel` more iterations yields the snapshots of
years `n+1, …, n+fuel`. -/
lemma projLoop_eq (p : Params) (a : ℤ) (h : p.current_age = some a) :
    ∀ fuel n,
      projLoop p (n + 1) fuel (salaryAt p n) (cashAt p a n) (investedAt p a n)
        = some ((List.range' (n + 1) fuel).map (snapAt p a)) := by
  intro fuel
  induction fuel with
  | zero => intro n; simp [projLoop]
  | succ k ih =>
    intro n
    have hsal : salaryAt p n * (1 + growthGet p.industry) = salaryAt p (n + 1) :=
      (salaryAt_succ p n).symm
    have hrent :
        (if (truthy p.marriage_age = true) ∧
            (p.marriage_age.getD 0 ≤ a + ((n + 1 : ℕ) : ℤ) - 1)
         then p.rent * (8/10) else p.rent) = rentAt p a (n + 1) := rfl
    have hcash :
        cashAt p a n +
            (salaryAt p (n + 1) - (rentAt p a (n + 1) + p.monthly_expenses * 12)) *
              (1 - p.invest_ratio)
          = cashAt p a (n + 1) := rfl
    have hinv :
        investedAt p a n * (1 + p.investment_rate) +
            (salaryAt p (n + 1) - (rentAt p a (n + 1) + p.monthly_expenses * 12)) *
              p.invest_ratio
          = investedAt p a (n + 1) := rfl
    have hexp : rentAt p a (n + 1) + p.monthly_expenses * 12 = expensesAt p a (n + 1) := rfl
    have hsav : salaryAt p (n + 1) - expensesAt p a (n + 1) = savingsAt p a (n + 1) := rfl
    simp only [projLoop, h]
    rw [hsal, hrent, hcash, hinv, hexp, hsav, ih (n + 1)]
    have hrange : List.range' (n + 1) (k + 1) = (n + 1) :: List.range' (n + 1 + 1) k := rfl
    rw [hrange]
    simp only [List.map_cons, Option.map_some]
    rfl

/-- With a present `current_age`, `calculate_projection` succeeds and
returns exactly the snapshots of years `1, …, years`. -/
lemma calculate_projection_eq (p : Params) (a : ℤ) (h : p.current_age = some a) :
    calculate_projection p = some ((List.range' 1 p.years).map (snapAt p a)) := by
  have h0 := projLoop_eq p a h p.years 0
  simpa [calculate_projection, salaryAt, cashAt, investedAt] using h0

/-- With `current_age = None` and at least one year to simulate, the first
iteration raises (modelled: `none`). -/
lemma calculate_projection_none (p : Params) (h : p.current_age = none)
    (hy : 1 ≤ p.years) : calculate_projection p = none := by
  obtain ⟨k, hk⟩ : ∃ k, p.years = k + 1 := ⟨p.years - 1, by omega⟩
  unfold calculate_projection
  rw [hk]
  simp [projLoop, h]

/-! ### Elementary facts about the rounding function and the growth table -/

lemma abs_pyRound_sub_le (x : ℚ) : |(pyRound x : ℚ) - x| ≤ 1/2 := by
  have hfl : (⌊x⌋ : ℚ) ≤ x := Int.floor_le x
  have hfu : x < ⌊x⌋ + 1 := Int.lt_floor_add_one x
  unfold pyRound
  split_ifs <;> rw [abs_le] <;> constructor <;> push_cast <;> linarith

lemma abs_round2_sub_le (x : ℚ) : |round2 x - x| ≤ 1/200 := by
  have h := abs_pyRound_sub_le (100 * x)
  have hrw : round2 x - x = ((pyRound (100 * x) : ℚ) - 100 * x) / 100 := by
    unfold round2; ring
  rw [hrw, abs_div, abs_of_pos (by norm_num : (0:ℚ) < 100)]
  rw [div_le_iff₀ (by norm_num : (0:ℚ) < 100)]
  linarith

/-- The rounded sum differs from the sum of the roundings by at most one
cent: the three rounding errors add up to at most 3/2 hundredths, but the
difference is an integer number of hundredths, so it is at most 1. -/
lemma abs_round2_add_sub_le (a b : ℚ) :
    |round2 (a + b) - (round2 a + round2 b)| ≤ 1/100 := by
  set A : ℤ := pyRound (100 * (a + b)) - pyRound (100 * a) - pyRound (100 * b) with hA
  have h1 := abs_pyRound_sub_le (100 * (a + b))
  have h2 := abs_pyRound_sub_le (100 * a)
  have h3 := abs_pyRound_sub_le (100 * b)
  rw [abs_le] at h1 h2 h3
  have hcast : (A : ℚ) =
      ((pyRound (100 * (a + b)) : ℚ) - 100 * (a + b))
        - ((pyRound (100 * a) : ℚ) - 100 * a)
        - ((pyRound (100 * b) : ℚ) - 100 * b) := by
    rw [hA]; push_cast; ring
  have habsQ : |(A : ℚ)| ≤ 3/2 := by
    rw [abs_le, hcast]; constructor <;> linarith [h1.1, h1.2, h2.1, h2.2, h3.1, h3.2]
  have habsZ : |A| ≤ 1 := by
    by_contra hc
    push_neg at hc
    have h2le : (2 : ℤ) ≤ |A| := hc
    have : (2 : ℚ) ≤ |(A : ℚ)| := by
      rw [← Int.cast_abs]
      exact_mod_cast h2le
    linarith
  have hrw : round2 (a + b) - (round2 a + round2 b) = (A : ℚ) / 100 := by
    rw [hA]; unfold round2; push_cast; ring
  rw [hrw, abs_div, abs_of_pos (by norm_num : (0:ℚ) < 100)]
  rw [div_le_iff₀ (by norm_num : (0:ℚ) < 100)]
  have : |(A : ℚ)| ≤ 1 := by
    rw [← Int.cast_abs]
    exact_mod_cast habsZ
  linarith

/-- Quantities at least one cent plus two half-cent rounding errors apart
stay strictly ordered after rounding. -/
lemma round2_lt_round2 (a b : ℚ) (h : a + 1/100 < b) : round2 a < round2 b := by
  have ha := abs_round2_sub_le a
  have hb := abs_round2_sub_le b
  rw [abs_le] at ha hb
  linarith [ha.1, ha.2, hb.1, hb.2]

lemma lt_round2 (s b : ℚ) (h : s + 1/200 < b) : s < round2 b := by
  have hb := abs_round2_sub_le b
  rw [abs_le] at hb
  linarith [hb.1, hb.2]

/-- Every rate in the growth table, and the default, is at least 2%. -/
lemma growthGet_ge (s : String) : 1/50 ≤ growthGet s := by
  unfold growthGet INDUSTRY_GROWTH
  simp only [List.lookup]
  repeat' split
  all_goals norm_num [Option.getD]

lemma growthGet_pos (s : String) : 0 < growthGet s :=
  lt_of_lt_of_le (by norm_num) (growthGet_ge s)

lemma growthGet_technology : growthGet ("technology") = 6/100 := rfl

lemma growthGet_government : growthGet ("government") = 2/100 := rfl

lemma growthGet_education : growthGet ("education") = 3/100 := rfl

lemma one_le_growth_pow (g : ℚ) (hg : 0 ≤ g) : ∀ n : ℕ, 1 ≤ (1 + g) ^ n
  | 0 => by norm_num
  | n + 1 => by
    rw [pow_succ]
    nlinarith [one_le_growth_pow g hg n]

/-- For a starting salary of at least 1, the internal salary is at least 1
in every year. -/
lemma one_le_salaryAt (p : Params) (hs : 1 ≤ p.starting_salary) (n : ℕ) :
    1 ≤ salaryAt p n := by
  have hg := growthGet_ge p.industry
  have hp := one_le_growth_pow (growthGet p.industry) (by linarith) n
  unfold salaryAt
  nlinarith

/-- For a starting salary of at least 1, consecutive internal salaries are
more than a cent apart (the growth rate is at least 2%). -/
lemma salaryAt_gap (p : Params) (hs : 1 ≤ p.starting_salary) (n : ℕ) :
    salaryAt p n + 1/100 < salaryAt p (n + 1) := by
  have hg := growthGet_ge p.industry
  have h1 := one_le_salaryAt p hs n
  have hstep : salaryAt p (n + 1) = salaryAt p n + salaryAt p n * growthGet p.industry := by
    rw [salaryAt_succ]; ring
  nlinarith

/-! ### C1 -/

/-- A parameter record satisfying every documented precondition, with the
optional marriage plan absent. -/
def paramsNoPlan : Params :=
  { starting_salary := 50000, rent := 12000, monthly_expenses := 1000,
    years := 10, industry := "finance", investment_rate := 1/20,
    invest_ratio := 1/2, current_age := none, marriage_age := none }

/-- C1: the claim states that `calculate_projection` is total over the
documented precondition domain and in particular succeeds when the
marriage plan is absent.  The code contradicts this: with
`current_age = None` the expression `params['current_age'] + year - 1`
(the `Age` field, line 57) raises a `TypeError` in the first iteration,
so on a parameter record meeting every documented precondition with the
marriage plan absent the engine raises instead of returning a result
(modelled: `none`). -/
theorem C1_engine_errors_without_plan :
    0 < paramsNoPlan.starting_salary ∧ 0 < paramsNoPlan.rent ∧
    0 < paramsNoPlan.monthly_expenses ∧
    1 ≤ paramsNoPlan.years ∧ paramsNoPlan.years ≤ 50 ∧
    0 ≤ paramsNoPlan.investment_rate ∧ paramsNoPlan.investment_rate ≤ 1/5 ∧
    0 ≤ paramsNoPlan.invest_ratio ∧ paramsNoPlan.invest_ratio ≤ 1 ∧
    paramsNoPlan.current_age = none ∧ paramsNoPlan.marriage_age = none ∧
    calculate_projection paramsNoPlan = none := by
  refine ⟨by norm_num [paramsNoPlan], by norm_num [paramsNoPlan],
    by norm_num [paramsNoPlan], by norm_num [paramsNoPlan],
    by norm_num [paramsNoPlan], by norm_num [paramsNoPlan],
    by norm_num [paramsNoPlan], by norm_num [paramsNoPlan],
    by norm_num [paramsNoPlan], rfl, rfl,
    calculate_projection_none paramsNoPlan rfl (by norm_num [paramsNoPlan])⟩

/-! ### C2 -/

/-- The concrete scenario of the claim: no marriage plan. -/
def scenarioParams : Params :=
  { starting_salary := 80000, rent := 18000, monthly_expenses := 1500,
    years := 3, industry := "technology", investment_rate := 1/20,
    invest_ratio := 1/2, current_age := none, marriage_age := none }

/-- The same scenario with a marriage plan that never triggers within the
horizon (ages 30 and 99), used to exhibit the values the algorithm was
meant to produce. -/
def scenarioParamsWithPlan : Params :=
  { scenarioParams with current_age := some 30, marriage_age := some 99 }

/-- C2: the claim states that on the concrete scenario (no marriage plan)
the engine returns a year-1 snapshot with Salary=84800.00,
Expenses=36000, Savings=48800.00, Invested=24400.00, Cash=24400.00,
Total=48800.00.  The code instead raises a `TypeError` on this very input
(the `Age` field adds `year - 1` to `current_age = None`), so no snapshot
is returned at all; the numbers themselves are exactly what the engine
computes once a (non-triggering) marriage plan makes it run, confirming
the intended arithmetic. -/
theorem C2_concrete_scenario_errors :
    calculate_projection scenarioParams = none ∧
    ((calculate_projection scenarioParamsWithPlan).getD []).head? =
      some { Year := 1, Age := 30, Salary := 84800, Rent := 18000,
             Expenses := 36000, Savings := 48800, Invested := 24400,
             Cash := 24400, Total := 48800 } := by
  constructor
  · exact calculate_projection_none scenarioParams rfl (by norm_num [scenarioParams])
  · rw [calculate_projection_eq scenarioParamsWithPlan 30 rfl]
    norm_num [scenarioParamsWithPlan, scenarioParams, List.range', snapAt,
      Snapshot.mk.injEq, salaryAt, rentAt, expensesAt, savingsAt, toInvestAt,
      toCashAt, investedAt, cashAt, growthGet_technology, truthy,
      round2, pyRound]

/-! ### C3 -/

/-- C3: any sequence returned by `calculate_projection` under the
documented bounds on `years` has length exactly `params.years`, and its
snapshots carry `Year = 1, 2, …, years` in ascending order. -/
theorem C3_length_and_year_order (p : Params) (r : List Snapshot)
    (h1 : 1 ≤ p.years) (_hy50 : p.years ≤ 50)
    (hr : calculate_projection p = some r) :
    r.length = p.years ∧ r.map Snapshot.Year = List.range' 1 p.years := by
  cases hca : p.current_age with
  | none =>
    rw [calculate_projection_none p hca h1] at hr
    exact absurd hr (by simp)
  | some a =>
    rw [calculate_projection_eq p a hca] at hr
    obtain rfl : r = (List.range' 1 p.years).map (snapAt p a) := by
      exact (Option.some_injective _ hr).symm
    constructor
    · simp
    · rw [List.map_map, show Snapshot.Year ∘ snapAt p a = id from rfl, List.map_id]

def paramsC3 : Params :=
  { starting_salary := 1000, rent := 100, monthly_expenses := 10,
    years := 2, industry := "education", investment_rate := 0,
    invest_ratio := 0, current_age := some 30, marriage_age := some 40 }

theorem C3_length_and_year_order_witness :
    1 ≤ paramsC3.years ∧ paramsC3.years ≤ 50 ∧
    (((List.range' 1 paramsC3.years).map (snapAt paramsC3 30)).length = paramsC3.years ∧
      ((List.range' 1 paramsC3.years).map (snapAt paramsC3 30)).map Snapshot.Year =
        List.range' 1 paramsC3.years) :=
  ⟨by decide, by decide,
    C3_length_and_year_order paramsC3 ((List.range' 1 paramsC3.years).map (snapAt paramsC3 30))
      (by decide) (by decide) (calculate_projection_eq paramsC3 30 rfl)⟩

/-! ### C4 -/

/-- With a present (truthy) `marriage_age` value `m`, the effective rent
of a year is the 20%-reduced original rent exactly when
`current_age + year - 1 ≥ m`. -/
lemma rentAt_eq (p : Params) (a m : ℤ) (hma : p.marriage_age = some m)
    (hm : m ≠ 0) (year : ℕ) :
    rentAt p a year =
      if m ≤ a + (year : ℤ) - 1 then p.rent * (8/10) else p.rent := by
  unfold rentAt
  rw [hma]
  simp [truthy, hm]

/-- C4: with a marriage plan present, the emitted Rent of year `y` is the
(2-digit rounding of) `base_rent * 0.8` when `current_age + y - 1 ≥
marriage_age` and of the unchanged `base_rent` otherwise.  The reduction
is recomputed from the original `p.rent` each year — the reduced branch
is always `p.rent * 0.8`, never a further-compounded value — and since
the trigger condition is monotone in `y`, once triggered it holds for
every later year. -/
theorem C4_rent_threshold (p : Params) (a m : ℤ) (r : List Snapshot)
    (hca : p.current_age = some a) (hma : p.marriage_age = some m)
    (hm : m ≠ 0) (hr : calculate_projection p = some r) :
    r.map Snapshot.Rent = (List.range' 1 p.years).map
      (fun year : ℕ => if m ≤ a + (year : ℤ) - 1 then round2 (p.rent * (8/10))
        else round2 p.rent) := by
  rw [calculate_projection_eq p a hca] at hr
  obtain rfl : r = (List.range' 1 p.years).map (snapAt p a) :=
    (Option.some_injective _ hr).symm
  rw [List.map_map]
  have hfun : Snapshot.Rent ∘ snapAt p a = fun year : ℕ =>
      if m ≤ a + (year : ℤ) - 1 then round2 (p.rent * (8/10))
      else round2 p.rent := by
    funext year
    show round2 (rentAt p a year) = _
    rw [rentAt_eq p a m hma hm year, apply_ite round2]
  rw [hfun]

/-- The rent-reduction scenario named by the claim: `current_age = 30`,
`marriage_age = 32`, `rent = 12000`, over four years. -/
def paramsC4 : Params :=
  { starting_salary := 60000, rent := 12000, monthly_expenses := 500,
    years := 4, industry := "finance", investment_rate := 1/20,
    invest_ratio := 1/2, current_age := some 30, marriage_age := some 32 }

theorem C4_rent_threshold_witness :
    paramsC4.current_age = some 30 ∧ paramsC4.marriage_age = some 32 ∧
    (32 : ℤ) ≠ 0 ∧
    ((List.range' 1 paramsC4.years).map (snapAt paramsC4 30)).map Snapshot.Rent =
      (List.range' 1 paramsC4.years).map
        (fun year : ℕ => if (32 : ℤ) ≤ 30 + (year : ℤ) - 1
          then round2 (paramsC4.rent * (8/10)) else round2 paramsC4.rent) :=
  ⟨rfl, rfl, by decide,
    C4_rent_threshold paramsC4 30 32
      ((List.range' 1 paramsC4.years).map (snapAt paramsC4 30)) rfl rfl
      (by decide) (calculate_projection_eq paramsC4 30 rfl)⟩

/-! ### C5 -/

/-- For a starting salary of at least 1, the internal salary of every
simulated year exceeds the starting salary by more than half a cent. -/
lemma starting_lt_salaryAt (p : Params) (hs : 1 ≤ p.starting_salary)
    (n : ℕ) (hn : 1 ≤ n) : p.starting_salary + 1/200 < salaryAt p n := by
  obtain ⟨k, rfl⟩ : ∃ k, n = k + 1 := ⟨n - 1, by omega⟩
  have hgap := salaryAt_gap p hs k
  have hk : p.starting_salary ≤ salaryAt p k := by
    have hg := growthGet_ge p.industry
    have hp := one_le_growth_pow (growthGet p.industry) (by linarith) k
    unfold salaryAt
    nlinarith
  linarith

/-- A valid parameter record (small but positive salary) on which the
original claim fails: 2-digit rounding maps the grown salary back onto
the input value. -/
def paramsTinySalary : Params :=
  { starting_salary := 1/10, rent := 100, monthly_expenses := 10,
    years := 1, industry := "government", investment_rate := 0,
    invest_ratio := 0, current_age := some 30, marriage_age := some 40 }

/-- C5 counterexample: on a parameter record satisfying every documented
precondition (`starting_salary = 0.1 > 0`, rate `government` = 0.02 > 0),
the single emitted Salary equals the input `starting_salary` as-is:
`round(0.1 * 1.02, 2) = 0.1`.  This refutes the claim's clause that the
input starting salary is never emitted as-is. -/
theorem C5_salary_emitted_as_is_cex :
    0 < paramsTinySalary.starting_salary ∧ 0 < paramsTinySalary.rent ∧
    0 < paramsTinySalary.monthly_expenses ∧
    1 ≤ paramsTinySalary.years ∧ paramsTinySalary.years ≤ 50 ∧
    0 ≤ paramsTinySalary.investment_rate ∧
    paramsTinySalary.investment_rate ≤ 1/5 ∧
    0 ≤ paramsTinySalary.invest_ratio ∧ paramsTinySalary.invest_ratio ≤ 1 ∧
    0 < growthGet paramsTinySalary.industry ∧
    ((calculate_projection paramsTinySalary).getD []).map Snapshot.Salary =
      [paramsTinySalary.starting_salary] := by
  refine ⟨by norm_num [paramsTinySalary], by norm_num [paramsTinySalary],
    by norm_num [paramsTinySalary], by norm_num [paramsTinySalary],
    by norm_num [paramsTinySalary], by norm_num [paramsTinySalary],
    by norm_num [paramsTinySalary], by norm_num [paramsTinySalary],
    by norm_num [paramsTinySalary], growthGet_pos _, ?_⟩
  rw [calculate_projection_eq paramsTinySalary 30 rfl]
  norm_num [paramsTinySalary, List.range', snapAt, salaryAt,
    growthGet_government, round2, pyRound]

/-- C5 (amended): for every run with `starting_salary ≥ 1` (in particular
every value the app's integer input widget can supply), the emitted
Salary of year `n` is the 2-digit rounding of
`starting_salary * (1 + rate)^n` — one year of growth is applied before
year 1's figures — and the input `starting_salary` itself never appears
among the emitted Salary values.  (For salaries below one franc the
as-is clause fails by rounding, see the counterexample.) -/
theorem C5_salary_growth_amended (p : Params) (a : ℤ) (r : List Snapshot)
    (hs : 1 ≤ p.starting_salary) (hca : p.current_age = some a)
    (hr : calculate_projection p = some r) :
    r.map Snapshot.Salary = (List.range' 1 p.years).map
      (fun n => round2 (p.starting_salary * (1 + growthGet p.industry) ^ n)) ∧
    p.starting_salary ∉ r.map Snapshot.Salary := by
  rw [calculate_projection_eq p a hca] at hr
  obtain rfl : r = (List.range' 1 p.years).map (snapAt p a) :=
    (Option.some_injective _ hr).symm
  constructor
  · rw [List.map_map]
    rfl
  · intro hmem
    rw [List.map_map, List.mem_map] at hmem
    obtain ⟨n, hn, heq⟩ := hmem
    have h1n : 1 ≤ n := (List.mem_range'_1.mp hn).1
    rw [show (Snapshot.Salary ∘ snapAt p a) n = round2 (salaryAt p n) from rfl] at heq
    have hlt := lt_round2 p.starting_salary (salaryAt p n)
      (starting_lt_salaryAt p hs n h1n)
    linarith [heq.le, heq.ge]

def paramsC5 : Params :=
  { starting_salary := 1000, rent := 100, monthly_expenses := 10,
    years := 2, industry := "finance", investment_rate := 1/10,
    invest_ratio := 1/2, current_age := some 30, marriage_age := some 40 }

theorem C5_salary_growth_amended_witness :
    1 ≤ paramsC5.starting_salary ∧
    (((List.range' 1 paramsC5.years).map (snapAt paramsC5 30)).map Snapshot.Salary =
        (List.range' 1 paramsC5.years).map
          (fun n => round2 (paramsC5.starting_salary *
            (1 + growthGet paramsC5.industry) ^ n)) ∧
      paramsC5.starting_salary ∉
        ((List.range' 1 paramsC5.years).map (snapAt paramsC5 30)).map Snapshot.Salary) :=
  ⟨by norm_num [paramsC5],
    C5_salary_growth_amended paramsC5 30
      ((List.range' 1 paramsC5.years).map (snapAt paramsC5 30))
      (by norm_num [paramsC5]) rfl (calculate_projection_eq paramsC5 30 rfl)⟩

/-! ### C6 -/

/-- With a zero investment rate the invested balance is the plain running
sum of the yearly contributions. -/
lemma investedAt_rate_zero (p : Params) (a : ℤ) (h : p.investment_rate = 0) :
    ∀ n, investedAt p a n = ∑ k ∈ Finset.range n, toInvestAt p a (k + 1)
  | 0 => by simp [investedAt]
  | n + 1 => by
    rw [investedAt, investedAt_rate_zero p a h n, h, Finset.sum_range_succ]
    ring

/-- C6: the emitted Invested values are the 2-digit roundings of the
internal sequence `investedAt`, whose defining equations are exactly the
claimed recurrence: `investedAt 0 = 0` and
`investedAt (n+1) = investedAt n * (1 + investment_rate) + to_invest (n+1)`
— the prior balance compounds first, the year's contribution is added
afterwards and earns no return in its own year, and
`investedAt 1 = 0 * (1+rate) + to_invest 1 = to_invest 1`.  Moreover with
`investment_rate = 0` the emitted value of year N is the rounding of the
exact running sum of the contributions of years 1..N. -/
theorem C6_invested_recurrence (p : Params) (a : ℤ) (r : List Snapshot)
    (hca : p.current_age = some a) (hr : calculate_projection p = some r) :
    r.map Snapshot.Invested = (List.range' 1 p.years).map
      (fun n => round2 (investedAt p a n)) ∧
    (p.investment_rate = 0 →
      r.map Snapshot.Invested = (List.range' 1 p.years).map
        (fun n => round2 (∑ k ∈ Finset.range n, toInvestAt p a (k + 1)))) := by
  rw [calculate_projection_eq p a hca] at hr
  obtain rfl : r = (List.range' 1 p.years).map (snapAt p a) :=
    (Option.some_injective _ hr).symm
  constructor
  · rw [List.map_map]
    rfl
  · intro h0
    rw [List.map_map]
    have hfun : Snapshot.Invested ∘ snapAt p a =
        fun n => round2 (∑ k ∈ Finset.range n, toInvestAt p a (k + 1)) := by
      funext n
      show round2 (investedAt p a n) = _
      rw [investedAt_rate_zero p a h0 n]
    rw [hfun]

def paramsC6 : Params :=
  { starting_salary := 1000, rent := 100, monthly_expenses := 10,
    years := 2, industry := "education", investment_rate := 0,
    invest_ratio := 1/2, current_age := some 30, marriage_age := some 40 }

theorem C6_invested_recurrence_witness :
    paramsC6.current_age = some 30 ∧
    (((List.range' 1 paramsC6.years).map (snapAt paramsC6 30)).map Snapshot.Invested =
        (List.range' 1 paramsC6.years).map
          (fun n => round2 (investedAt paramsC6 30 n)) ∧
      (paramsC6.investment_rate = 0 →
        ((List.range' 1 paramsC6.years).map (snapAt paramsC6 30)).map Snapshot.Invested =
          (List.range' 1 paramsC6.years).map
            (fun n => round2 (∑ k ∈ Finset.range n, toInvestAt paramsC6 30 (k + 1))))) :=
  ⟨rfl,
    C6_invested_recurrence paramsC6 30
      ((List.range' 1 paramsC6.years).map (snapAt paramsC6 30)) rfl
      (calculate_projection_eq paramsC6 30 rfl)⟩

/-! ### C7 -/

/-- C7: the emitted Total of every snapshot is the 2-digit rounding of the
sum of the *unrounded* internal cash and invested balances (rounding is
applied only at emission; the state carried into the next iteration is
unrounded), and consequently every snapshot satisfies
`|Total - (Cash + Invested)| ≤ 0.01`. -/
theorem C7_total_conservation (p : Params) (a : ℤ) (r : List Snapshot)
    (hca : p.current_age = some a) (hr : calculate_projection p = some r) :
    r.map Snapshot.Total = (List.range' 1 p.years).map
      (fun n => round2 (cashAt p a n + investedAt p a n)) ∧
    List.Forall (fun s => |s.Total - (s.Cash + s.Invested)| ≤ 1/100) r := by
  rw [calculate_projection_eq p a hca] at hr
  obtain rfl : r = (List.range' 1 p.years).map (snapAt p a) :=
    (Option.some_injective _ hr).symm
  constructor
  · rw [List.map_map]
    rfl
  · rw [List.forall_iff_forall_mem]
    intro s hs
    rw [List.mem_map] at hs
    obtain ⟨n, hn, rfl⟩ := hs
    show |round2 (cashAt p a n + investedAt p a n) -
      (round2 (cashAt p a n) + round2 (investedAt p a n))| ≤ 1/100
    exact abs_round2_add_sub_le _ _

def paramsC7 : Params :=
  { starting_salary := 2000, rent := 500, monthly_expenses := 30,
    years := 3, industry := "consulting", investment_rate := 7/100,
    invest_ratio := 3/10, current_age := some 25, marriage_age := some 27 }

theorem C7_total_conservation_witness :
    paramsC7.current_age = some 25 ∧
    (((List.range' 1 paramsC7.years).map (snapAt paramsC7 25)).map Snapshot.Total =
        (List.range' 1 paramsC7.years).map
          (fun n => round2 (cashAt paramsC7 25 n + investedAt paramsC7 25 n)) ∧
      List.Forall (fun s => |s.Total - (s.Cash + s.Invested)| ≤ 1/100)
        ((List.range' 1 paramsC7.years).map (snapAt paramsC7 25))) :=
  ⟨rfl,
    C7_total_conservation paramsC7 25
      ((List.range' 1 paramsC7.years).map (snapAt paramsC7 25)) rfl
      (calculate_projection_eq paramsC7 25 rfl)⟩

/-! ### C8 -/

/-- The loop only reads the industry through `growthGet`, so replacing the
industry by one with the same effective rate leaves every iteration
unchanged. -/
lemma projLoop_industry_congr (p : Params) (j : String)
    (hg : growthGet j = growthGet p.industry) :
    ∀ fuel year s sv inv,
      projLoop { p with industry := j } year fuel s sv inv =
        projLoop p year fuel s sv inv := by
  intro fuel
  induction fuel with
  | zero => intro year s sv inv; rfl
  | succ k ih =>
    intro year s sv inv
    simp only [projLoop]
    cases hc : p.current_age with
    | none => rfl
    | some a =>
      simp only [hg]
      rw [← hc, ih]

/-- C8: an industry key absent from the 8-entry growth table silently
falls back to the default rate 0.03 and produces exactly the same output
sequence as an industry whose table rate is 0.03 (here: `education`),
with every other parameter identical. -/
theorem C8_default_rate_fallback (p : Params)
    (h : INDUSTRY_GROWTH.lookup p.industry = none) :
    calculate_projection p =
      calculate_projection { p with industry := "education" } := by
  have hg : growthGet ("education") = growthGet p.industry := by
    rw [growthGet_education]
    unfold growthGet
    rw [h]
    rfl
  unfold calculate_projection
  rw [projLoop_industry_congr p "education" hg]

def paramsC8 : Params :=
  { starting_salary := 900, rent := 120, monthly_expenses := 15,
    years := 2, industry := "astrology", investment_rate := 1/20,
    invest_ratio := 1/4, current_age := some 30, marriage_age := some 40 }

theorem C8_default_rate_fallback_witness :
    INDUSTRY_GROWTH.lookup paramsC8.industry = none ∧
    calculate_projection paramsC8 =
      calculate_projection { paramsC8 with industry := "education" } :=
  ⟨rfl, C8_default_rate_fallback paramsC8 rfl⟩

/-! ### C9 -/

/-- A valid parameter record (positive but tiny salary, positive growth
rate 0.02) on which the original claim fails: both emitted salaries round
to 0.10, so they are not strictly increasing. -/
def paramsC9cex : Params :=
  { starting_salary := 1/10, rent := 100, monthly_expenses := 10,
    years := 2, industry := "government", investment_rate := 0,
    invest_ratio := 0, current_age := some 30, marriage_age := some 40 }

/-- C9 counterexample: with `starting_salary = 0.1` and the positive
growth rate 0.02, the two emitted Salary values are both 0.10 after
2-digit rounding (`round(0.102, 2) = round(0.10404, 2) = 0.1`), so the
emitted salaries are not strictly increasing although the applicable
growth rate is positive. -/
theorem C9_monotonic_salary_cex :
    0 < growthGet paramsC9cex.industry ∧
    ((calculate_projection paramsC9cex).getD []).map Snapshot.Salary =
      [1/10, 1/10] ∧
    ¬ List.Chain' (fun x y : ℚ => x < y)
      (((calculate_projection paramsC9cex).getD []).map Snapshot.Salary) := by
  have hmap : ((calculate_projection paramsC9cex).getD []).map Snapshot.Salary =
      [1/10, 1/10] := by
    rw [calculate_projection_eq paramsC9cex 30 rfl]
    norm_num [paramsC9cex, List.range', snapAt, salaryAt,
      growthGet_government, round2, pyRound]
  refine ⟨growthGet_pos _, hmap, ?_⟩
  rw [hmap]
  intro hch
  exact absurd (List.chain'_cons.mp hch).1 (lt_irrefl _)

/-- C9 (amended): for every run with `starting_salary ≥ 1` (every value
the app's integer salary widget can supply), the emitted Salary fields
are strictly increasing; the applicable growth rate is always at least
0.02 > 0, so each unrounded salary step exceeds a cent and survives the
2-digit emission rounding.  (For salaries below one franc rounding can
collapse consecutive values, see the counterexample.) -/
theorem C9_monotonic_salary_amended (p : Params) (r : List Snapshot)
    (hs : 1 ≤ p.starting_salary) (hr : calculate_projection p = some r) :
    List.Chain' (fun x y : ℚ => x < y) (r.map Snapshot.Salary) := by
  cases hca : p.current_age with
  | none =>
    rcases hy : p.years with _ | y
    · unfold calculate_projection at hr
      rw [hy] at hr
      obtain rfl : r = [] := by
        have := hr.symm
        simpa [projLoop] using this
      simp
    · rw [calculate_projection_none p hca (by omega)] at hr
      exact absurd hr (by simp)
  | some a =>
    rw [calculate_projection_eq p a hca] at hr
    obtain rfl : r = (List.range' 1 p.years).map (snapAt p a) :=
      (Option.some_injective _ hr).symm
    rw [List.map_map, List.chain'_iff_get]
    intro i hlen
    simp only [List.length_map, List.length_range'] at hlen
    simp only [List.get_eq_getElem, List.getElem_map, List.getElem_range']
    show round2 (salaryAt p (1 + 1 * i)) < round2 (salaryAt p (1 + 1 * (i + 1)))
    have h1 : 1 + 1 * (i + 1) = (1 + 1 * i) + 1 := by omega
    rw [h1]
    exact round2_lt_round2 _ _ (salaryAt_gap p hs (1 + 1 * i))

def paramsC9 : Params :=
  { starting_salary := 1500, rent := 200, monthly_expenses := 20,
    years := 3, industry := "technology", investment_rate := 1/20,
    invest_ratio := 1/2, current_age := some 30, marriage_age := some 40 }

theorem C9_monotonic_salary_amended_witness :
    1 ≤ paramsC9.starting_salary ∧
    List.Chain' (fun x y : ℚ => x < y)
      (((List.range' 1 paramsC9.years).map (snapAt paramsC9 30)).map Snapshot.Salary) :=
  ⟨by norm_num [paramsC9],
    C9_monotonic_salary_amended paramsC9
      ((List.range' 1 paramsC9.years).map (snapAt paramsC9 30))
      (by norm_num [paramsC9]) (calculate_projection_eq paramsC9 30 rfl)⟩

/-! ### C10 -/

/-- C10: when the marriage plan is present with `marriage_age ≤
current_age` (unvalidated by spec and code alike), the trigger condition
`current_age + year - 1 ≥ marriage_age` holds already in year 1, so every
snapshot — the first included — carries the reduced rent
`round(base_rent * 0.8, 2)`; no snapshot carries the unreduced rent. -/
theorem C10_premarried_rent (p : Params) (a m : ℤ) (r : List Snapshot)
    (hca : p.current_age = some a) (hma : p.marriage_age = some m)
    (hm : m ≠ 0) (hle : m ≤ a) (hr : calculate_projection p = some r) :
    r.map Snapshot.Rent = List.replicate p.years (round2 (p.rent * (8/10))) := by
  rw [calculate_projection_eq p a hca] at hr
  obtain rfl : r = (List.range' 1 p.years).map (snapAt p a) :=
    (Option.some_injective _ hr).symm
  rw [List.map_map]
  have hfun : ∀ n ∈ List.range' 1 p.years,
      (Snapshot.Rent ∘ snapAt p a) n = round2 (p.rent * (8/10)) := by
    intro n hn
    have h1n : 1 ≤ n := (List.mem_range'_1.mp hn).1
    show round2 (rentAt p a n) = _
    rw [rentAt_eq p a m hma hm n, if_pos (by omega)]
  rw [List.map_congr_left hfun, List.map_const', List.length_range']

def paramsC10 : Params :=
  { starting_salary := 2000, rent := 1000, monthly_expenses := 50,
    years := 3, industry := "finance", investment_rate := 1/10,
    invest_ratio := 1/2, current_age := some 40, marriage_age := some 35 }

theorem C10_premarried_rent_witness :
    paramsC10.current_age = some 40 ∧ paramsC10.marriage_age = some 35 ∧
    (35 : ℤ) ≠ 0 ∧ (35 : ℤ) ≤ 40 ∧
    ((List.range' 1 paramsC10.years).map (snapAt paramsC10 40)).map Snapshot.Rent =
      List.replicate paramsC10.years (round2 (paramsC10.rent * (8/10))) :=
  ⟨rfl, rfl, by decide, by decide,
    C10_premarried_rent paramsC10 40 35
      ((List.range' 1 paramsC10.years).map (snapAt paramsC10 40)) rfl rfl
      (by decide) (by decide) (calculate_projection_eq paramsC10 40 rfl)⟩

end FinanceApp
